import Mathlib

/-!
Shallow embedding of the GiggleGram single-page widget (src/app.js) and
proofs about its observable behaviour: the screen manager (displayScreen),
the joke fetcher (showNewJoke), the quote fetcher (showNewQuote) and the
feedback-button handler (handleFunnyButtonClick / its timer).

Network interaction is modelled by passing the environment-determined
outcome of the single fetch round trip as an argument; each routine is
embedded as a function from that outcome to the ordered trace of its
observable events (display-state writes and issued requests), which is
exactly the order the statements execute in the source.
-/

namespace GiggleGram

/-- The three cached screen elements (DOM.homeScreen, DOM.jokeScreen,
DOM.quoteScreen). -/
inductive Screen
  | homeScreen
  | jokeScreen
  | quoteScreen
deriving DecidableEq, Repr

/-- Visibility state of the three screens: whether each currently carries
the Tailwind class named hidden. -/
structure ScreenVis where
  homeHidden : Bool
  jokeHidden : Bool
  quoteHidden : Bool
deriving DecidableEq, Repr

/-- Read whether a given screen carries the class named hidden. -/
def hiddenOf (s : ScreenVis) : Screen → Bool
  | .homeScreen => s.homeHidden
  | .jokeScreen => s.jokeHidden
  | .quoteScreen => s.quoteHidden

/-- classList.toggle of the class named hidden with a forced second argument:
sets its presence on the given screen to the given Boolean. -/
def setHidden (s : ScreenVis) : Screen → Bool → ScreenVis
  | .homeScreen, b => { s with homeHidden := b }
  | .jokeScreen, b => { s with jokeHidden := b }
  | .quoteScreen, b => { s with quoteHidden := b }

/-- displayScreen(screenToShow): iterates over the array of the three screens
and toggles the class named hidden on each with condition
screen !== screenToShow (src/app.js lines 47 to 54). -/
def displayScreen (screenToShow : Screen) (s : ScreenVis) : ScreenVis :=
  [Screen.homeScreen, Screen.jokeScreen, Screen.quoteScreen].foldl
    (fun acc screen => setHidden acc screen (decide (screen ≠ screenToShow))) s

/-- Outcome of awaiting response.json(): the body fails to parse (the promise
rejects), parses to JSON null (a later property read throws a TypeError), or
parses to a value whose relevant shape is abstracted as the type argument. -/
inductive BodyOutcome (α : Type)
  | parseError (msg : String)
  | parsedNull
  | parsed (v : α)
deriving DecidableEq, Repr

/-- Outcome of one fetch round trip: the transport rejects with an error
message, or a response arrives carrying an HTTP status and a body. -/
inductive FetchOutcome (α : Type)
  | transportError (msg : String)
  | response (status : Nat) (body : BodyOutcome α)
deriving DecidableEq, Repr

/-- Response.ok per the Fetch standard, which the code branches on with
`!response.ok`: the status lies in the inclusive range 200 to 299. -/
def respOk (status : Nat) : Bool := 200 ≤ status && status ≤ 299

/-- JavaScript property read interpolated into a template string: a missing
property is the value undefined and renders as the text undefined. A present
property renders as its string coercion, folded into the String here. -/
def jsString : Option String → String
  | some s => s
  | none => "undefined"

/-- The fields the joke success path reads from the parsed body
(jokeData.setup and jokeData.punchline); a field the parsed value lacks is
none. -/
structure JokeRecord where
  setup : Option String
  punchline : Option String
deriving DecidableEq, Repr

/-- A write to DOM.jokeTextContainer: the loading placeholder paragraph, the
two-paragraph setup/punchline rendering, or a plain-text message. -/
inductive JokeWrite
  | loading
  | jokePair (setup punchline : String)
  | message (text : String)
deriving DecidableEq, Repr

/-- An observable event of showNewJoke: a display-state write or an issued
network request. -/
inductive JokeEvent
  | write (w : JokeWrite)
  | request (url : String)
deriving DecidableEq, Repr

/-- API_CONFIG.joke.url. -/
def jokeUrl : String := "https://official-joke-api.appspot.com/random_joke"

/-- The fixed fallback text the joke catch block writes. -/
def oopsJokeMsg : String := "Oops! Couldn't fetch a joke. Please try again."

/-- showNewJoke (src/app.js lines 61 to 92) as the ordered trace of its
observable events, given the environment-determined fetch outcome. The
loading placeholder is written first, then fetch is called; a transport
rejection, a throw on `!response.ok`, a body-parse rejection, or the
TypeError from reading a property of a null body all land in the catch
block, which writes the fixed message. A parsed non-null body takes the
success path, interpolating each (possibly missing) field. -/
def showNewJoke (outcome : FetchOutcome JokeRecord) : List JokeEvent :=
  [.write .loading, .request jokeUrl] ++
  match outcome with
  | .transportError _ => [.write (.message oopsJokeMsg)]
  | .response status body =>
    if !(respOk status) then [.write (.message oopsJokeMsg)]
    else
      match body with
      | .parseError _ => [.write (.message oopsJokeMsg)]
      | .parsedNull => [.write (.message oopsJokeMsg)]
      | .parsed r => [.write (.jokePair (jsString r.setup) (jsString r.punchline))]

/-- The display-state writes of a joke trace, in order. -/
def jokeWrites (evs : List JokeEvent) : List JokeWrite :=
  evs.filterMap fun e =>
    match e with
    | .write w => some w
    | .request _ => none

/-- The requests a joke trace issues, in order. -/
def jokeRequests (evs : List JokeEvent) : List String :=
  evs.filterMap fun e =>
    match e with
    | .write _ => none
    | .request u => some u

/-- The final (still visible) joke display state after the call resolves. -/
def jokeFinalWrite (outcome : FetchOutcome JokeRecord) : Option JokeWrite :=
  (jokeWrites (showNewJoke outcome)).getLast?

/-- Classifies the fetch outcomes on which showNewJoke reaches its catch
block: transport rejection, non-success status, body-parse rejection, or a
body parsed to null. A parsed non-null body is not among them, whatever
fields it carries. -/
def jokeFailureOutcome : FetchOutcome JokeRecord → Bool
  | .transportError _ => true
  | .response status body =>
    !(respOk status) ||
      match body with
      | .parseError _ => true
      | .parsedNull => true
      | .parsed _ => false

/-- The fields the quote success path reads from the first element of the
parsed array (quoteData.quote and quoteData.author). -/
structure QuoteRecord where
  quote : Option String
  author : Option String
deriving DecidableEq, Repr

/-- A write to DOM.quoteTextContainer: the loading placeholder, the
instructional add-your-API-key block, the rendered quote/author pair, or a
plain-text message. -/
inductive QuoteWrite
  | loading
  | apiKeyPrompt
  | quotePair (q a : String)
  | message (text : String)
deriving DecidableEq, Repr

/-- An observable event of showNewQuote: a display-state write or an issued
request with its X-Api-Key header value. -/
inductive QuoteEvent
  | write (w : QuoteWrite)
  | request (url : String) (apiKey : String)
deriving DecidableEq, Repr

/-- API_CONFIG.quote.url. -/
def quoteUrl : String := "https://api.api-ninjas.com/v1/quotes"

/-- The message of the error thrown on status 401 or 403. -/
def authFailMsg : String := "Authentication failed. Is your API key correct?"

/-- The message of the error thrown on any other non-success status. -/
def httpErrorMsg (status : Nat) : String := "HTTP error! status: " ++ toString status

/-- Modelled engine text of the TypeError thrown by indexing a null body
(quoteDataArray is null, so quoteDataArray[0] throws). -/
def tyErrNullIndex : String := "Cannot read properties of null (reading 0)"

/-- Modelled engine text of the TypeError thrown by reading quoteData.quote
when the parsed array has no first element, so quoteData is undefined. -/
def tyErrUndefQuote : String := "Cannot read properties of undefined (reading quote)"

/-- Modelled engine text of the TypeError thrown by reading quoteData.quote
when the first element of the parsed array is null. -/
def tyErrNullQuote : String := "Cannot read properties of null (reading quote)"

/-- showNewQuote (src/app.js lines 97 to 141) as the ordered trace of its
observable events, given the configured key and the environment-determined
fetch outcome. The source writes the loading placeholder FIRST and only then
checks the key against the placeholder sentinel or the empty string,
returning after writing the instructional block; otherwise it issues the
request with the X-Api-Key header. Any error reaching the catch block is
displayed as the text Oops! followed by that error's message. -/
def showNewQuote (key : String) (outcome : FetchOutcome (List (Option QuoteRecord))) :
    List QuoteEvent :=
  [.write .loading] ++
  if key = "YOUR_API_KEY" || key = "" then
    [.write .apiKeyPrompt]
  else
    [.request quoteUrl key] ++
    match outcome with
    | .transportError msg => [.write (.message ("Oops! " ++ msg))]
    | .response status body =>
      if !(respOk status) then
        if status = 401 || status = 403 then
          [.write (.message ("Oops! " ++ authFailMsg))]
        else
          [.write (.message ("Oops! " ++ httpErrorMsg status))]
      else
        match body with
        | .parseError msg => [.write (.message ("Oops! " ++ msg))]
        | .parsedNull => [.write (.message ("Oops! " ++ tyErrNullIndex))]
        | .parsed elems =>
          match elems.head? with
          | none => [.write (.message ("Oops! " ++ tyErrUndefQuote))]
          | some none => [.write (.message ("Oops! " ++ tyErrNullQuote))]
          | some (some r) => [.write (.quotePair (jsString r.quote) (jsString r.author))]

/-- The display-state writes of a quote trace, in order. -/
def quoteWrites (evs : List QuoteEvent) : List QuoteWrite :=
  evs.filterMap fun e =>
    match e with
    | .write w => some w
    | .request _ _ => none

/-- The requests a quote trace issues, in order, as url/header pairs. -/
def quoteRequests (evs : List QuoteEvent) : List (String × String) :=
  evs.filterMap fun e =>
    match e with
    | .write _ => none
    | .request u k => some (u, k)

/-- The final (still visible) quote display state after the call resolves. -/
def quoteFinalWrite (key : String) (outcome : FetchOutcome (List (Option QuoteRecord))) :
    Option QuoteWrite :=
  (quoteWrites (showNewQuote key outcome)).getLast?

/-- State of the funny button: its textContent, whether the dimming classes
(cursor-not-allowed, opacity-50) are present, and the pending setTimeout
callbacks as fire-time/captured-text pairs in scheduling order. The source
never sets the disabled property, so clicks are processed in every state. -/
structure FunnyState where
  text : String
  dimmed : Bool
  timers : List (Nat × String)
deriving DecidableEq, Repr

/-- The acknowledgment text the click handler writes. -/
def ackText : String := "Haha! 😂"

/-- Fires, in scheduling order, every pending timer due at or before time t:
each callback sets textContent to the text it captured and removes the
dimming classes. Returns the resulting text, dimming flag and remaining
timers. -/
def fireDue (t : Nat) : List (Nat × String) → String → Bool → String × Bool × List (Nat × String)
  | [], text, dimmed => (text, dimmed, [])
  | (ft, cap) :: rest, text, dimmed =>
    if ft ≤ t then fireDue t rest cap false
    else (text, dimmed, (ft, cap) :: rest)

/-- Advances the simulated clock to time t, running every due timer callback
in scheduling order. -/
def advanceTo (t : Nat) (s : FunnyState) : FunnyState :=
  let r := fireDue t s.timers s.text s.dimmed
  { text := r.1, dimmed := r.2.1, timers := r.2.2 }

/-- handleFunnyButtonClick (src/app.js lines 146 to 155) at time t: the event
loop first runs timers due by t, then the handler captures the current
textContent as originalText, writes the acknowledgment text, adds the
dimming classes, and schedules a callback for 1500 ms later that restores
the captured text and removes the classes. -/
def clickFunny (t : Nat) (s : FunnyState) : FunnyState :=
  let s1 := advanceTo t s
  { text := ackText
    dimmed := true
    timers := s1.timers ++ [(t + 1500, s1.text)] }

/-- Helper: on every outcome that reaches the catch block of showNewJoke,
the final joke display write is the fixed fallback message. -/
theorem joke_failure_fixed_aux (outcome : FetchOutcome JokeRecord)
    (h : jokeFailureOutcome outcome = true) :
    jokeFinalWrite outcome = some (.message oopsJokeMsg) := by
  cases outcome with
  | transportError msg => rfl
  | response status body =>
    cases body with
    | parseError msg =>
      cases hok : respOk status <;>
        simp [jokeFinalWrite, jokeWrites, showNewJoke, hok]
    | parsedNull =>
      cases hok : respOk status <;>
        simp [jokeFinalWrite, jokeWrites, showNewJoke, hok]
    | parsed r =>
      have hok : respOk status = false := by
        simpa [jokeFailureOutcome] using h
      simp [jokeFinalWrite, jokeWrites, showNewJoke, hok]

/-- Helper: a text beginning with the literal prefix of the generic
HTTP-status message is never the text displayed for an authentication
failure, whatever the interpolated status renders to. -/
theorem oops_http_ne_oops_auth (t : String) :
    "Oops! " ++ ("HTTP error! status: " ++ t) ≠ "Oops! " ++ authFailMsg := by
  intro h
  have hd : "Oops! ".data ++ ("HTTP error! status: ".data ++ t.data)
      = ("Oops! " ++ authFailMsg).data := congrArg String.data h
  rw [← List.append_assoc] at hd
  have h26 := congrArg (List.take 26) hd
  rw [show (26 : Nat) = ("Oops! ".data ++ "HTTP error! status: ".data).length from by decide,
    List.take_left] at h26
  exact absurd h26 (by decide)

/-- C4: after each call to displayScreen with a target screen, exactly the
target is visible (its hidden class is absent) and the other two screens are
hidden, from every starting visibility state — hence along every sequence of
calls; and the call is idempotent: repeating it with the already-active
screen changes nothing observable. -/
theorem displayScreen_exclusive_and_idempotent (s : ScreenVis) (t : Screen) :
    (∀ x : Screen, hiddenOf (displayScreen t s) x = decide (x ≠ t))
    ∧ displayScreen t (displayScreen t s) = displayScreen t s := by
  constructor
  · intro x
    cases t <;> cases x <;> rfl
  · cases t <;> rfl

/-- C5: when the configured quote credential is the placeholder sentinel or
the empty string, showNewQuote issues no network request and the final quote
display state is the instructional add-your-API-key block. -/
theorem showNewQuote_sentinel_no_request (key : String)
    (outcome : FetchOutcome (List (Option QuoteRecord)))
    (h : key = "YOUR_API_KEY" ∨ key = "") :
    quoteRequests (showNewQuote key outcome) = []
    ∧ quoteFinalWrite key outcome = some .apiKeyPrompt := by
  have hk : (key = "YOUR_API_KEY" || key = "") = true := by
    rcases h with h | h <;> simp [h]
  constructor <;>
    simp [quoteRequests, quoteFinalWrite, quoteWrites, showNewQuote, hk]

/-- Witness for C5 at the sentinel credential itself. -/
theorem showNewQuote_sentinel_no_request_witness :
    quoteRequests (showNewQuote "YOUR_API_KEY" (.transportError "x")) = []
    ∧ quoteFinalWrite "YOUR_API_KEY" (.transportError "x") = some .apiKeyPrompt :=
  showNewQuote_sentinel_no_request "YOUR_API_KEY" (.transportError "x") (Or.inl rfl)

/-- C6: with a non-sentinel credential, a response with status 401 or 403
makes the final quote display state the authentication-specific message,
while any other non-success status yields the generic HTTP-status message,
which differs from the authentication message whatever the status renders
to. -/
theorem showNewQuote_status_messages (key : String) (status : Nat)
    (body : BodyOutcome (List (Option QuoteRecord)))
    (hk : ¬(key = "YOUR_API_KEY" ∨ key = "")) :
    ((status = 401 ∨ status = 403) →
      quoteFinalWrite key (.response status body)
        = some (.message ("Oops! " ++ authFailMsg)))
    ∧ (respOk status = false → status ≠ 401 → status ≠ 403 →
      quoteFinalWrite key (.response status body)
        = some (.message ("Oops! " ++ httpErrorMsg status))
      ∧ "Oops! " ++ httpErrorMsg status ≠ "Oops! " ++ authFailMsg) := by
  have hk2 : (key = "YOUR_API_KEY" || key = "") = false := by
    simp only [Bool.or_eq_false_iff, decide_eq_false_iff_not]
    exact ⟨fun a => hk (Or.inl a), fun a => hk (Or.inr a)⟩
  constructor
  · rintro (rfl | rfl) <;>
      simp [quoteFinalWrite, quoteWrites, showNewQuote, hk2, respOk]
  · intro hok h1 h3
    refine ⟨?_, oops_http_ne_oops_auth (toString status)⟩
    simp [quoteFinalWrite, quoteWrites, showNewQuote, hk2, hok, h1, h3]

/-- Witness for C6 at statuses 401 and 500 with a concrete configured key. -/
theorem showNewQuote_status_messages_witness :
    quoteFinalWrite "k" (.response 401 (.parseError "e"))
      = some (.message ("Oops! " ++ authFailMsg))
    ∧ quoteFinalWrite "k" (.response 500 (.parseError "e"))
      = some (.message ("Oops! " ++ httpErrorMsg 500)) :=
  ⟨(showNewQuote_status_messages "k" 401 (.parseError "e") (by decide)).1 (Or.inl rfl),
   ((showNewQuote_status_messages "k" 500 (.parseError "e") (by decide)).2
      rfl (by decide) (by decide)).1⟩

/-- C7: a success-status response whose body parses with both fields setup S
and punchline P makes the observable trace of showNewJoke exactly the
loading write, the request, then the write of the pair (S, P); and on every
outcome the loading write precedes the request, which is the first possible
suspension. -/
theorem showNewJoke_success_pair_loading_first (S P : String) (status : Nat)
    (h : respOk status = true) :
    showNewJoke (.response status (.parsed ⟨some S, some P⟩))
      = [.write .loading, .request jokeUrl, .write (.jokePair S P)]
    ∧ ∀ outcome, (showNewJoke outcome).take 2 = [.write .loading, .request jokeUrl] := by
  constructor
  · simp [showNewJoke, h, jsString]
  · intro outcome
    cases outcome <;> rfl

/-- Witness for C7 at status 200 and the body fields S and P. -/
theorem showNewJoke_success_pair_loading_first_witness :
    showNewJoke (.response 200 (.parsed ⟨some "S", some "P"⟩))
      = [.write .loading, .request jokeUrl, .write (.jokePair "S" "P")] :=
  (showNewJoke_success_pair_loading_first "S" "P" 200 rfl).1

/-- C8: with a non-sentinel credential, a success-status response whose body
parses to a sequence whose first record carries quote Q and author A makes
the final quote display state exactly the pair (Q, A), whatever the rest of
the sequence holds — only the first element is used. -/
theorem showNewQuote_success_first_element (key Q A : String) (status : Nat)
    (rest : List (Option QuoteRecord))
    (hk : ¬(key = "YOUR_API_KEY" ∨ key = "")) (h : respOk status = true) :
    quoteFinalWrite key (.response status (.parsed (some ⟨some Q, some A⟩ :: rest)))
      = some (.quotePair Q A) := by
  have hk2 : (key = "YOUR_API_KEY" || key = "") = false := by
    simp only [Bool.or_eq_false_iff, decide_eq_false_iff_not]
    exact ⟨fun a => hk (Or.inl a), fun a => hk (Or.inr a)⟩
  simp [quoteFinalWrite, quoteWrites, showNewQuote, hk2, h, jsString]

/-- Witness for C8 with a two-element body, showing the second element is
ignored. -/
theorem showNewQuote_success_first_element_witness :
    quoteFinalWrite "k"
        (.response 200 (.parsed [some ⟨some "Q", some "A"⟩, some ⟨some "X", some "Y"⟩]))
      = some (.quotePair "Q" "A") :=
  showNewQuote_success_first_element "k" "Q" "A" 200 [some ⟨some "X", some "Y"⟩]
    (by decide) rfl

/-- C2 counterexample: a success-status body that parses but lacks the setup
and punchline fields does NOT produce the fixed fallback message; the
success path runs and renders the text undefined for each missing field. -/
theorem showNewJoke_missing_fields_counterexample :
    jokeFinalWrite (.response 200 (.parsed ⟨none, none⟩))
      = some (.jokePair "undefined" "undefined")
    ∧ jokeFinalWrite (.response 200 (.parsed ⟨none, none⟩))
      ≠ some (.message oopsJokeMsg) := by
  decide

/-- C2 amended: on transport failure, non-success status, a body that fails
to parse, or a body parsed to null, the final joke display state is exactly
the fixed fallback message (and the embedding is a total function: the call
resolves on every outcome); a parsed non-null body is handled by the success
path even when it lacks the expected fields. -/
theorem showNewJoke_failure_fixed_message (outcome : FetchOutcome JokeRecord)
    (h : jokeFailureOutcome outcome = true) :
    jokeFinalWrite outcome = some (.message oopsJokeMsg) :=
  joke_failure_fixed_aux outcome h

/-- Witness for the amended C2 at a transport failure. -/
theorem showNewJoke_failure_fixed_message_witness :
    jokeFinalWrite (.transportError "network down") = some (.message oopsJokeMsg) :=
  showNewJoke_failure_fixed_message (.transportError "network down") rfl

/-- C3 counterexample: on a transport failure the quote fetcher displays the
raw transport error text (prefixed with Oops!), a message that is neither
the authentication message nor a generic HTTP-status message — the raw
diagnostic text reaches display state. -/
theorem showNewQuote_raw_error_counterexample :
    quoteFinalWrite "k" (.transportError "Failed to fetch")
      = some (.message ("Oops! " ++ "Failed to fetch"))
    ∧ "Oops! " ++ "Failed to fetch" ≠ "Oops! " ++ authFailMsg
    ∧ "Oops! " ++ "Failed to fetch" ≠ "Oops! " ++ httpErrorMsg 500 := by
  decide

/-- C3 amended: the joke fetcher never surfaces raw error text — every
failure displays the fixed message — but the quote fetcher displays the
message of whatever error reached its catch block, so raw transport and
parse error text is shown to the user there, not only the
authentication/status distinction. -/
theorem quote_error_message_surfaced (key msg : String)
    (hk : ¬(key = "YOUR_API_KEY" ∨ key = "")) :
    quoteFinalWrite key (.transportError msg) = some (.message ("Oops! " ++ msg))
    ∧ quoteFinalWrite key (.response 200 (.parseError msg))
      = some (.message ("Oops! " ++ msg))
    ∧ ∀ outcome, jokeFailureOutcome outcome = true →
        jokeFinalWrite outcome = some (.message oopsJokeMsg) := by
  have hk2 : (key = "YOUR_API_KEY" || key = "") = false := by
    simp only [Bool.or_eq_false_iff, decide_eq_false_iff_not]
    exact ⟨fun a => hk (Or.inl a), fun a => hk (Or.inr a)⟩
  refine ⟨?_, ?_, fun outcome h => joke_failure_fixed_aux outcome h⟩ <;>
    simp [quoteFinalWrite, quoteWrites, showNewQuote, hk2, respOk]

/-- Witness for the amended C3 at a concrete transport failure. -/
theorem quote_error_message_surfaced_witness :
    quoteFinalWrite "k" (.transportError "DNS failure")
      = some (.message ("Oops! " ++ "DNS failure")) :=
  (quote_error_message_surfaced "k" "DNS failure" (by decide)).1

/-- C9 counterexample: with the sentinel credential the trace of
showNewQuote still begins with the loading-placeholder write — the source
writes the placeholder before the credential check — so the instructional
message is not the only write of the sentinel path. -/
theorem showNewQuote_loading_counterexample :
    showNewQuote "YOUR_API_KEY" (.transportError "x")
      = [.write .loading, .write .apiKeyPrompt]
    ∧ quoteWrites (showNewQuote "YOUR_API_KEY" (.transportError "x"))
      ≠ [.apiKeyPrompt] := by
  decide

/-- C9 amended: the loading placeholder is the first write of every
invocation, before the credential check; in the sentinel path it is
immediately followed (overwritten) by the instructional message with no
request issued; in the non-sentinel path the placeholder write still
precedes the single request. -/
theorem showNewQuote_loading_always_first (key : String)
    (outcome : FetchOutcome (List (Option QuoteRecord))) :
    (showNewQuote key outcome).head? = some (.write .loading)
    ∧ ((key = "YOUR_API_KEY" ∨ key = "") →
        showNewQuote key outcome = [.write .loading, .write .apiKeyPrompt])
    ∧ (¬(key = "YOUR_API_KEY" ∨ key = "") →
        (showNewQuote key outcome).take 2
          = [.write .loading, .request quoteUrl key]) := by
  refine ⟨rfl, ?_, ?_⟩
  · intro h
    have hk : (key = "YOUR_API_KEY" || key = "") = true := by
      rcases h with h | h <;> simp [h]
    simp [showNewQuote, hk]
  · intro h
    have hk2 : (key = "YOUR_API_KEY" || key = "") = false := by
      simp only [Bool.or_eq_false_iff, decide_eq_false_iff_not]
      exact ⟨fun a => h (Or.inl a), fun a => h (Or.inr a)⟩
    simp [showNewQuote, hk2]

/-- Witness for the amended C9 at the sentinel credential. -/
theorem showNewQuote_loading_always_first_witness :
    showNewQuote "YOUR_API_KEY" (.transportError "y")
      = [.write .loading, .write .apiKeyPrompt] :=
  (showNewQuote_loading_always_first "YOUR_API_KEY" (.transportError "y")).2.1
    (Or.inl rfl)

/-- C1 counterexample: the funny button is never disabled, so a second click
700 ms into the cooldown is processed: it changes the state (a second timer
is scheduled), and after both timers elapse the label is stuck at the
acknowledgment text instead of reverting to the original label exactly
once. -/
theorem funny_reclick_counterexample :
    clickFunny 700 (clickFunny 0 (⟨"Funny!", false, []⟩ : FunnyState))
      ≠ clickFunny 0 (⟨"Funny!", false, []⟩ : FunnyState)
    ∧ (advanceTo 3000
        (clickFunny 700 (clickFunny 0 (⟨"Funny!", false, []⟩ : FunnyState)))).text
      = ackText
    ∧ ackText ≠ "Funny!" := by
  decide

/-- C1 amended: activating the idle control immediately writes the
acknowledgment label and adds the dimming classes (the control is dimmed,
not disabled); until the 1500 ms timer is due nothing changes; when it
elapses the label and classes revert to their original values exactly once
(the state is then timer-free, so no further change occurs); but a re-click
inside the window is processed rather than blocked: it leaves the visible
label and dimming unchanged while scheduling a second timer that captured
the acknowledgment text as the label to restore. -/
theorem funny_activation_behavior (s0 : FunnyState) (t : Nat)
    (h : s0.timers = []) :
    (clickFunny t s0).text = ackText
    ∧ (clickFunny t s0).dimmed = true
    ∧ (∀ u, u < t + 1500 → advanceTo u (clickFunny t s0) = clickFunny t s0)
    ∧ (∀ u, t + 1500 ≤ u →
        advanceTo u (clickFunny t s0) = ⟨s0.text, false, []⟩)
    ∧ (∀ v, t ≤ v → v < t + 1500 →
        clickFunny v (clickFunny t s0)
          = ⟨ackText, true, [(t + 1500, s0.text), (v + 1500, ackText)]⟩) := by
  have hc : clickFunny t s0 = ⟨ackText, true, [(t + 1500, s0.text)]⟩ := by
    simp [clickFunny, advanceTo, fireDue, h]
  refine ⟨by rw [hc], by rw [hc], ?_, ?_, ?_⟩
  · intro u hu
    rw [hc]
    simp [advanceTo, fireDue, Nat.not_le.mpr hu]
  · intro u hu
    rw [hc]
    simp [advanceTo, fireDue, hu]
  · intro v _ hv
    rw [hc]
    simp [clickFunny, advanceTo, fireDue, Nat.not_le.mpr hv]

/-- Witness for the amended C1: one activation at time 0 from an idle state,
observed at the moment the timer is due. -/
theorem funny_activation_behavior_witness :
    advanceTo 1500 (clickFunny 0 (⟨"Funny!", false, []⟩ : FunnyState))
      = ⟨"Funny!", false, []⟩ :=
  (funny_activation_behavior ⟨"Funny!", false, []⟩ 0 rfl).2.2.2.1 1500 (by decide)

/-- C10: the click handler captures the label the control has at the moment
of the activation and schedules exactly one timer carrying that captured
text; for an activation from a timer-free state, once the 1500 ms are due
the label is restored to that captured value, whatever it was. -/
theorem funny_timer_restores_captured_label (s : FunnyState) (t : Nat) :
    (clickFunny t s).timers
      = (advanceTo t s).timers ++ [(t + 1500, (advanceTo t s).text)]
    ∧ (s.timers = [] → ∀ u, t + 1500 ≤ u →
        (advanceTo u (clickFunny t s)).text = s.text) := by
  constructor
  · rfl
  · intro h u hu
    simp [clickFunny, advanceTo, fireDue, h, hu]

/-- Witness for C10 with a distinctive starting label. -/
theorem funny_timer_restores_captured_label_witness :
    (advanceTo 2000 (clickFunny 5 (⟨"Tell me!", false, []⟩ : FunnyState))).text
      = "Tell me!" :=
  (funny_timer_restores_captured_label ⟨"Tell me!", false, []⟩ 5).2 rfl 2000
    (by decide)

end GiggleGram
